import Mathlib

/-!
Shallow embedding of `Telegram/SourceFiles/boxes/background_preview_box.cpp`
(the wallpaper preview box of Telegram Desktop) together with proofs about it.

The GUI toolkit, the data session, the downloader and the animation helpers
are external collaborators of this file; they appear here either as opaque
payload tokens (`Image`, `Color`), as fields of an environment record `Env`
holding the externally computed functions, or as event parameters carrying
the current state of the external world (document loading, thumbnail loaded).
-/

/-- Opaque token standing for a `QImage`/`QPixmap` payload. -/
abbrev Image : Type := Nat

/-- Opaque token standing for a `QColor` value. -/
abbrev Color : Type := Nat

/-- Modelled from the spec: `Data::WallPaper` (the application's data model,
an external collaborator of this file, not part of the source slice).  Only
the observations the box makes of a paper are kept: its id, whether
`Data::IsCloudWallPaper` holds, presence of `document()` and `thumbnail()`,
the `isPattern`/`isBlurred` flags, the share URL and the background color. -/
structure WallPaper where
  id : Nat
  isCloud : Bool
  hasDocument : Bool
  hasThumbnail : Bool
  isPattern : Bool
  isBlurred : Bool
  shareUrlHas : Bool
  shareUrlText : List Char
  backgroundColor : Option Color
deriving DecidableEq

/-- Modelled from the spec: `Data::WallPaper::withBlurred` (not part of the
source slice) returns a copy of the paper with only the blurred flag
replaced; every other observation, the document included, is unchanged. -/
def WallPaper.withBlurred (p : WallPaper) (blurred : Bool) : WallPaper :=
  { p with isBlurred := blurred }

/-- Modelled from the spec: the observable state of the `Ui::RadialAnimation`
helper `_radial` (an external collaborator).  The box only ever starts it,
feeds it a progress/finished pair in `step_radial`, and steps it while
painting; the model records exactly those interactions. -/
structure RadialState where
  animating : Bool
  progress : Rat
  finished : Bool
deriving DecidableEq

/-- Modelled from the spec: `RadialAnimation::start(progress)` begins
animating at the given progress. -/
def RadialState.start (progress : Rat) : RadialState :=
  { animating := true, progress := progress, finished := false }

/-- Modelled from the spec: `RadialAnimation::update(progress, finished, ms)`
records the progress shown and whether the download has finished. -/
def RadialState.update (r : RadialState) (progress : Rat) (finished : Bool) :
    RadialState :=
  { r with progress := progress, finished := finished }

/-- Modelled from the spec: `RadialAnimation::step(ms)` during painting; a
finished radial stops animating. -/
def RadialState.step (r : RadialState) : RadialState :=
  if r.finished then { r with animating := false } else r

/-- The observable state of the `_blur` checkbox widget (`Ui::Checkbox` with
a `ServiceCheck` view): its checked state and its disabled flag. -/
structure BlurCheckbox where
  checked : Bool
  disabled : Bool
deriving DecidableEq

/-- Checked state of an optional checkbox widget (`_blur->checked()`;
`false` when the widget does not exist, in which case the code never asks). -/
def blurChecked : Option BlurCheckbox → Bool
  | some cb => cb.checked
  | none => false

/-- `setDisabled(false)` on the widget when it exists. -/
def enableBlur : Option BlurCheckbox → Option BlurCheckbox
  | some cb => some { cb with disabled := false }
  | none => none

/-- The mutable state of a `BackgroundPreviewBox`.

`full`, `scaled`, `blurred` model the `QImage _full` and `QPixmap _scaled`,
`_blurred` members with `none` for a null image/pixmap.  `generation` and
`generating` model the move-only `base::binary_guard _generating`: every
decode attempt gets a fresh generation number, and `generating = some g`
means the guard of generation `g` is the one currently alive. -/
structure BoxState where
  paper : WallPaper
  full : Option Image
  scaled : Option Image
  blurred : Option Image
  blur : Option BlurCheckbox
  radial : RadialState
  fadeInAnimating : Bool
  fadeOutThumbnail : Option Image
  serviceBg : Option Color
  shareButton : Bool
  generation : Nat
  generating : Option Nat
deriving DecidableEq

/-- State of a freshly constructed box (constructor, lines 389-405). -/
def BoxState.init (paper : WallPaper) : BoxState :=
  { paper := paper
    full := none
    scaled := none
    blurred := none
    blur := none
    radial := { animating := false, progress := 0, finished := false }
    fadeInAnimating := false
    fadeOutThumbnail := none
    serviceBg := none
    shareButton := false
    generation := 0
    generating := none }

/-- Externally computed image/color functions this file merely calls:
`Window::Theme::CountAverageColor`, `Window::Theme::AdjustedColor` with the
`st::msgServiceBg` base color, `PrepareScaledFromFull` (whose internals call
the toolkit's `Images::prepare`) and the composition
`PrepareScaledNonPattern ∘ Data::PrepareBlurredBackground`.  Theorems
quantify over every environment. -/
structure Env where
  countAverageColor : Image → Color
  adjustedColor : Color → Color → Color
  msgServiceBg : Color
  prepareScaledFromFull : Image → Option Color → Bool → Image
  prepareBlurredScaled : Image → Image

/-- `BackgroundPreviewBox::updateServiceBg` (lines 689-695). -/
def BackgroundPreviewBox.updateServiceBg (env : Env) (s : BoxState)
    (background : Option Color) : BoxState :=
  match background with
  | some c => { s with serviceBg := some (env.adjustedColor env.msgServiceBg c) }
  | none => s

/-- `BackgroundPreviewBox::patternBackgroundColor` (lines 697-699). -/
def BackgroundPreviewBox.patternBackgroundColor (s : BoxState) : Option Color :=
  if s.paper.isPattern then s.paper.backgroundColor else none

/-- `BackgroundPreviewBox::startFadeInFrom` (lines 673-676): stores the
previous pixmap and starts the `_fadeIn` animation. -/
def BackgroundPreviewBox.startFadeInFrom (s : BoxState)
    (previous : Option Image) : BoxState :=
  { s with fadeOutThumbnail := previous, fadeInAnimating := true }

/-- `BackgroundPreviewBox::setScaledFromImage` (lines 659-671). -/
def BackgroundPreviewBox.setScaledFromImage (env : Env) (s : BoxState)
    (image : Image) (blurred : Option Image) : BoxState :=
  let s1 := BackgroundPreviewBox.updateServiceBg env s
    (some (env.countAverageColor image))
  let s2 := if s1.full.isSome
    then BackgroundPreviewBox.startFadeInFrom s1 s1.scaled
    else s1
  let s3 := { s2 with scaled := some image, blurred := blurred }
  if s3.blur.isSome && (!s3.paper.hasDocument || s3.full.isSome)
    then { s3 with blur := enableBlur s3.blur }
    else s3

/-- `BackgroundPreviewBox::setScaledFromThumb` (lines 639-657).  The current
loaded state and pixel data of the paper's thumbnail are external inputs. -/
def BackgroundPreviewBox.setScaledFromThumb (env : Env) (s : BoxState)
    (thumbLoaded : Bool) (thumbOriginal : Image) : BoxState × Bool :=
  if !s.paper.hasThumbnail || !thumbLoaded then (s, false)
  else if s.paper.isPattern && s.paper.hasDocument then (s, false)
  else
    let scaled := env.prepareScaledFromFull thumbOriginal
      (BackgroundPreviewBox.patternBackgroundColor s) s.paper.hasDocument
    let blurred := if s.paper.hasDocument || s.paper.isPattern
      then none
      else some (env.prepareBlurredScaled thumbOriginal)
    (BackgroundPreviewBox.setScaledFromImage env s scaled blurred, true)

/-- `BackgroundPreviewBox::createBlurCheckbox` (lines 437-476): the view is
created with `checked = _paper.isBlurred()` and the widget is disabled at
the end. -/
def BackgroundPreviewBox.createBlurCheckbox (s : BoxState) : BoxState :=
  { s with blur := some { checked := s.paper.isBlurred, disabled := true } }

/-- `BackgroundPreviewBox::checkBlurAnimationStart` (lines 678-687). -/
def BackgroundPreviewBox.checkBlurAnimationStart (s : BoxState) : BoxState :=
  if s.fadeInAnimating
      || s.blurred.isNone
      || s.blur.isNone
      || (s.paper.isBlurred == blurChecked s.blur) then s
  else
    let p := s.paper.withBlurred (blurChecked s.blur)
    BackgroundPreviewBox.startFadeInFrom { s with paper := p }
      (if p.isBlurred then s.scaled else s.blurred)

/-- `BackgroundPreviewBox::checkLoadedDocument` (lines 701-745), the part
that runs synchronously: bail out when the full image is already decoded,
there is no document, the document file is not loaded yet, or a guard is
already alive; otherwise start an async decode whose binary guard gets a
fresh generation. -/
def BackgroundPreviewBox.checkLoadedDocument (s : BoxState)
    (docLoaded : Bool) : BoxState :=
  if s.full.isSome || !s.paper.hasDocument || !docLoaded || s.generating.isSome
    then s
    else { s with
      generation := s.generation + 1
      generating := some (s.generation + 1) }

/-- The main-thread completion of the async decode (lines 725-738): the
body runs only when its binary guard is still the live one (`if (!guard)
return;`); then it stores the decoded image into `_full` and hands the
scaled/blurred pixmaps (computed on the background thread) to
`setScaledFromImage`. -/
def BackgroundPreviewBox.onDecodeDone (env : Env) (s : BoxState) (g : Nat)
    (image scaled : Image) (blurred : Option Image) : BoxState :=
  if s.generating = some g
    then BackgroundPreviewBox.setScaledFromImage env
      { s with full := some image } scaled blurred
    else s

/-- `BackgroundPreviewBox::step_radial` (lines 622-637) minus the repaint:
feed the document's current progress and `!loading()` to the radial, then
re-check whether the document became ready to decode.  Its `Expects`
precondition is `_paper.document() != nullptr`. -/
def BackgroundPreviewBox.step_radial (s : BoxState) (docProgress : Rat)
    (docLoading docLoaded : Bool) : BoxState :=
  let s1 := { s with radial := s.radial.update docProgress (!docLoading) }
  BackgroundPreviewBox.checkLoadedDocument s1 docLoaded

/-- State effect of `BackgroundPreviewBox::paintRadial` (lines 547-557):
the radial is stepped when it is animating. -/
def BackgroundPreviewBox.paintRadialState (s : BoxState) : BoxState :=
  if s.radial.animating then { s with radial := s.radial.step } else s

/-- Whether `BackgroundPreviewBox::paintRadial` draws anything at all
(lines 547-557): it steps the radial and returns early, drawing nothing,
unless the radial was animating and still is after the step. -/
def BackgroundPreviewBox.paintRadialDraws (s : BoxState) : Bool :=
  s.radial.animating && (RadialState.step s.radial).animating

/-- The pixmap currently shown by `paintImage` (line 539-541): the blurred
one when it exists and the paper is blurred, else the scaled one. -/
def BackgroundPreviewBox.shownPixmap (s : BoxState) : Option Image :=
  if s.blurred.isSome && s.paper.isBlurred then s.blurred else s.scaled

/-- State effect of `BackgroundPreviewBox::paintEvent` (lines 496-517):
under `!color || isPattern` it may populate `_scaled` from the thumbnail,
runs `checkBlurAnimationStart` at the end of `paintImage`, and steps the
radial inside `paintRadial`. -/
def BackgroundPreviewBox.paintEvent (env : Env) (s : BoxState)
    (thumbLoaded : Bool) (thumbOriginal : Image) : BoxState :=
  if s.paper.backgroundColor.isNone || s.paper.isPattern then
    if s.scaled.isSome then
      BackgroundPreviewBox.paintRadialState
        (BackgroundPreviewBox.checkBlurAnimationStart s)
    else
      let st := BackgroundPreviewBox.setScaledFromThumb env s
        thumbLoaded thumbOriginal
      if st.2 then
        BackgroundPreviewBox.paintRadialState
          (BackgroundPreviewBox.checkBlurAnimationStart st.1)
      else if st.1.paper.backgroundColor.isNone then st.1
      else BackgroundPreviewBox.paintRadialState st.1
  else s

/-- Handler of `_blur->checkedChanges()` (lines 469-473): by the time it
runs the widget already holds the new checked value. -/
def BackgroundPreviewBox.blurToggled (s : BoxState) (checked : Bool) :
    BoxState :=
  match s.blur with
  | none => s
  | some cb =>
    BackgroundPreviewBox.checkBlurAnimationStart
      { s with blur := some { cb with checked := checked } }

/-- `BackgroundPreviewBox::prepare` (lines 407-435): add the share button
exactly when the paper has a share URL, update the service background,
start the radial when the document is loading, create the blur checkbox for
non-pattern papers with a thumbnail, seed the pixmaps from the thumbnail
and kick off the decode when the document is already loaded. -/
def BackgroundPreviewBox.prepare (env : Env) (s : BoxState)
    (docLoading : Bool) (docProgress : Rat)
    (thumbLoaded : Bool) (thumbOriginal : Image)
    (docLoaded : Bool) : BoxState :=
  let s0 := { s with shareButton := s.paper.shareUrlHas }
  let s1 := BackgroundPreviewBox.updateServiceBg env s0 s0.paper.backgroundColor
  let s2 := if s1.paper.hasDocument && docLoading
    then { s1 with radial := RadialState.start docProgress }
    else s1
  let s3 := if s2.paper.hasThumbnail && !s2.paper.isPattern
    then BackgroundPreviewBox.createBlurCheckbox s2
    else s2
  let s4 := (BackgroundPreviewBox.setScaledFromThumb env s3
    thumbLoaded thumbOriginal).1
  BackgroundPreviewBox.checkLoadedDocument s4 docLoaded

/-- Observable effects of `BackgroundPreviewBox::apply` (lines 478-489). -/
structure ApplyEffects where
  backgroundPaper : WallPaper
  backgroundImage : Option Image
  sentInstall : Bool
  closed : Bool
deriving DecidableEq

/-- `BackgroundPreviewBox::apply` (lines 478-489): always set the chat
background to the paper with the current `_full`, send
`account.installWallPaper` exactly for cloud papers whose id differs from
the installed background's id, and close the box. -/
def BackgroundPreviewBox.apply (s : BoxState) (installedId : Nat) :
    ApplyEffects :=
  let install := decide (s.paper.id ≠ installedId) && s.paper.isCloud
  { backgroundPaper := s.paper
    backgroundImage := s.full
    sentInstall := install
    closed := true }

/-- Observable effects of `BackgroundPreviewBox::share` (lines 491-494). -/
structure ShareEffects where
  clipboardText : List Char
  toastLinkCopied : Bool
deriving DecidableEq

/-- `BackgroundPreviewBox::share` (lines 491-494): copy the paper's share
URL to the clipboard and show the "link copied" toast. -/
def BackgroundPreviewBox.share (s : BoxState) : ShareEffects :=
  { clipboardText := s.paper.shareUrlText, toastLinkCopied := true }

/-- External events that can reach a prepared box: paint events, radial
animation ticks (which the animation manager delivers only while the radial
is animating), blur checkbox toggles, decode completions arriving on the
main thread, and completion of the `_fadeIn` animation. -/
inductive BoxEvent where
  | paint (thumbLoaded : Bool) (thumbOriginal : Image)
  | radialTick (docProgress : Rat) (docLoading docLoaded : Bool)
  | toggleBlur (checked : Bool)
  | decodeDone (g : Nat) (image scaled : Image) (blurred : Option Image)
  | fadeDone
deriving DecidableEq

/-- One external event hitting the box. -/
def stepEvent (env : Env) (s : BoxState) : BoxEvent → BoxState
  | .paint thumbLoaded thumbOriginal =>
    BackgroundPreviewBox.paintEvent env s thumbLoaded thumbOriginal
  | .radialTick docProgress docLoading docLoaded =>
    if s.radial.animating
      then BackgroundPreviewBox.step_radial s docProgress docLoading docLoaded
      else s
  | .toggleBlur checked => BackgroundPreviewBox.blurToggled s checked
  | .decodeDone g image scaled blurred =>
    BackgroundPreviewBox.onDecodeDone env s g image scaled blurred
  | .fadeDone => { s with fadeInAnimating := false }

/-- Run a sequence of external events. -/
def run (env : Env) (s : BoxState) (events : List BoxEvent) : BoxState :=
  events.foldl (stepEvent env) s

/-- Precondition of `step_radial`'s `Expects` (line 623): the paper has a
document. -/
def RadialDocInv (s : BoxState) : Prop :=
  s.radial.animating = true → s.paper.hasDocument = true

/-- Whether the blur checkbox exists and is enabled. -/
def blurEnabled (s : BoxState) : Bool :=
  match s.blur with
  | some cb => !cb.disabled
  | none => false

/-- Invariant of the blur checkbox: it exists only for non-pattern papers
with a thumbnail, and it is enabled only when the paper has no document or
the full image has been decoded. -/
def BlurInv (s : BoxState) : Prop :=
  (s.blur.isSome = true →
    s.paper.hasThumbnail = true ∧ s.paper.isPattern = false)
  ∧ (blurEnabled s = true →
    s.paper.hasDocument = false ∨ s.full.isSome = true)

/-- What one box-event step preserves about the state: the paper's document,
thumbnail and pattern observations are untouched (the only paper update goes
through `withBlurred`), the radial never restarts outside `prepare`, the
blur checkbox is never created outside `prepare`, the decoded full image is
never dropped, and the checkbox gets enabled only under the enabling
condition of `setScaledFromImage`. -/
def StepOk (s t : BoxState) : Prop :=
  t.paper.hasDocument = s.paper.hasDocument
  ∧ t.paper.hasThumbnail = s.paper.hasThumbnail
  ∧ t.paper.isPattern = s.paper.isPattern
  ∧ (t.radial.animating = true → s.radial.animating = true)
  ∧ (t.blur.isSome = true → s.blur.isSome = true)
  ∧ (s.full.isSome = true → t.full.isSome = true)
  ∧ (blurEnabled t = true →
      blurEnabled s = true
      ∨ t.paper.hasDocument = false ∨ t.full.isSome = true)

/-- `kMaxWallPaperSlugLength` (line 31). -/
def kMaxWallPaperSlugLength : Nat := 255

/-- The predicate passed to `ranges::find_if` inside `IsValidWallPaperSlug`
(lines 266-273): a character that is none of `.`, `_`, `-`, a digit, a
lowercase or an uppercase ASCII letter. -/
def isBadSlugChar (ch : Char) : Bool :=
  (ch != '.')
    && (ch != '_')
    && (ch != '-')
    && (decide (ch < '0') || decide ('9' < ch))
    && (decide (ch < 'a') || decide ('z' < ch))
    && (decide (ch < 'A') || decide ('Z' < ch))

/-- `IsValidWallPaperSlug` (lines 262-274); a `QString` is modelled as its
list of characters. -/
def IsValidWallPaperSlug (slug : List Char) : Bool :=
  if slug.isEmpty || decide (kMaxWallPaperSlugLength < slug.length)
    then false
    else (slug.find? isBadSlugChar).isNone

/-- Spec-side characterization of an acceptable slug character: ASCII
letters, digits, `.`, `_` and `-`. -/
def isGoodSlugChar (ch : Char) : Bool :=
  (ch == '.')
    || (ch == '_')
    || (ch == '-')
    || (decide ('0' ≤ ch) && decide (ch ≤ '9'))
    || (decide ('a' ≤ ch) && decide (ch ≤ 'z'))
    || (decide ('A' ≤ ch) && decide (ch ≤ 'Z'))

/-- Synchronous observable effects of `BackgroundPreviewBox::Start`. -/
structure StartResult where
  returned : Bool
  badLinkShown : Bool
  requested : Bool
  previewShown : Bool
deriving DecidableEq

/-- `BackgroundPreviewBox::Start` (lines 747-764).
`Data::WallPaper::FromColorSlug` is an external collaborator; only whether
it yields a paper matters, so it is passed as a predicate.  The
`requestWallPaper` callbacks run asynchronously after `Start` returned and
are outside this model. -/
def BackgroundPreviewBox.Start (fromColorSlug : List Char → Bool)
    (slug : List Char) : StartResult :=
  if fromColorSlug slug then
    { returned := true, badLinkShown := false
      requested := false, previewShown := true }
  else if !IsValidWallPaperSlug slug then
    { returned := false, badLinkShown := true
      requested := false, previewShown := false }
  else
    { returned := true, badLinkShown := false
      requested := true, previewShown := false }

/-- `framesForStyle`'s frame count (line 108):
`(st->duration / AnimationTimerDelta) + 2`, with C++ integer division. -/
def ServiceCheck.framesCount (duration delta : Nat) : Nat :=
  duration / delta + 2

/-- The frame index computed in `ServiceCheck::Generator::paintFrame`
(line 204): `int(std::round(toggled * (count - 1)))`.  `std::round` rounds
half away from zero, which on the nonnegative values arising here agrees
with Mathlib's `round`. -/
def ServiceCheck.paintFrameIndex (count : Nat) (toggled : Rat) : Int :=
  round (toggled * ((count : Rat) - 1))

/-- One `Format_ARGB32_Premultiplied` pixel, as its four bytes in memory
order on a little-endian machine; `a` is the last of the four bytes, the
one `ColorizePattern` reads. -/
structure Pixel where
  b : Nat
  g : Nat
  r : Nat
  a : Nat
deriving DecidableEq

/-- An image as rows of pixels (padding bytes past the row's pixels are
neither read nor written by `ColorizePattern`, so they are dropped). -/
abbrev PixImage : Type := List (List Pixel)

/-- The `anim` fixed-point color helpers `ColorizePattern` calls (external
collaborators): `shifted` spreads a color, and `mulUnshift p m` models
`anim::unshifted(p * m)`.  Theorems quantify over every implementation. -/
structure AnimOps where
  shifted : Color → Nat
  mulUnshift : Nat → Nat → Nat

/-- `ColorizePattern` (lines 326-371): compute `anim::shifted(color)` once,
then overwrite every output pixel with
`anim::unshifted(pattern * (alphaByte + 1))`, reading only the input
pixel's last byte (its alpha). -/
def ColorizePattern (ops : AnimOps) (image : PixImage) (color : Color) :
    List (List Nat) :=
  let pattern := ops.shifted color
  image.map (fun row => row.map (fun px => ops.mulUnshift pattern (px.a + 1)))

/-- The alpha channel of an image. -/
def alphaChannel (image : PixImage) : List (List Nat) :=
  image.map (fun row => row.map Pixel.a)

/-- A concrete environment used by witnesses. -/
def envW : Env :=
  { countAverageColor := fun _ => 0
    adjustedColor := fun _ c => c
    msgServiceBg := 0
    prepareScaledFromFull := fun i _ _ => i
    prepareBlurredScaled := fun i => i }

/-- A concrete paper used by witnesses: a cloud paper with a document, a
thumbnail, a share URL, no pattern, not blurred. -/
def paperW : WallPaper :=
  { id := 5
    isCloud := true
    hasDocument := true
    hasThumbnail := true
    isPattern := false
    isBlurred := false
    shareUrlHas := true
    shareUrlText := [ 't', 'g' ]
    backgroundColor := none }

/-- A concrete box state used by witnesses: a live decode guard of
generation 1, a blurred pixmap present, an enabled unchecked checkbox, no
fade-in running. -/
def stateW : BoxState :=
  { paper := { paperW with isBlurred := true }
    full := none
    scaled := some 3
    blurred := some 4
    blur := some { checked := false, disabled := false }
    radial := { animating := true, progress := 0, finished := false }
    fadeInAnimating := false
    fadeOutThumbnail := none
    serviceBg := none
    shareButton := true
    generation := 1
    generating := some 1 }

/-- Concrete `anim` helpers used by witnesses. -/
def opsW : AnimOps :=
  { shifted := fun c => c, mulUnshift := fun p m => p * m }

/-! Projection lemmas about the primitive state transformers. -/

@[simp] theorem WallPaper.withBlurred_hasDocument (p : WallPaper) (b : Bool) :
    (p.withBlurred b).hasDocument = p.hasDocument := rfl

@[simp] theorem WallPaper.withBlurred_hasThumbnail (p : WallPaper) (b : Bool) :
    (p.withBlurred b).hasThumbnail = p.hasThumbnail := rfl

@[simp] theorem WallPaper.withBlurred_isPattern (p : WallPaper) (b : Bool) :
    (p.withBlurred b).isPattern = p.isPattern := rfl

@[simp] theorem WallPaper.withBlurred_isBlurred (p : WallPaper) (b : Bool) :
    (p.withBlurred b).isBlurred = b := rfl

@[simp] theorem WallPaper.withBlurred_id (p : WallPaper) (b : Bool) :
    (p.withBlurred b).id = p.id := rfl

@[simp] theorem RadialState.update_animating (r : RadialState) (p : Rat) (f : Bool) :
    (r.update p f).animating = r.animating := rfl

@[simp] theorem RadialState.update_progress (r : RadialState) (p : Rat) (f : Bool) :
    (r.update p f).progress = p := rfl

@[simp] theorem RadialState.update_finished (r : RadialState) (p : Rat) (f : Bool) :
    (r.update p f).finished = f := rfl

theorem RadialState.step_animating (r : RadialState) :
    (RadialState.step r).animating = true → r.animating = true := by
  unfold RadialState.step
  split <;> simp

@[simp] theorem enableBlur_isSome (o : Option BlurCheckbox) :
    (enableBlur o).isSome = o.isSome := by
  cases o <;> rfl

theorem blurEnabled_eq_of_blur_eq {s t : BoxState} (h : t.blur = s.blur) :
    blurEnabled t = blurEnabled s := by
  unfold blurEnabled
  rw [h]

theorem blurEnabled_some {s : BoxState} {cb : BlurCheckbox}
    (h : s.blur = some cb) : blurEnabled s = !cb.disabled := by
  unfold blurEnabled
  rw [h]

theorem BackgroundPreviewBox.updateServiceBg_paper (env : Env) (s : BoxState)
    (bg : Option Color) :
    (BackgroundPreviewBox.updateServiceBg env s bg).paper = s.paper := by
  cases bg <;> rfl

theorem BackgroundPreviewBox.updateServiceBg_full (env : Env) (s : BoxState)
    (bg : Option Color) :
    (BackgroundPreviewBox.updateServiceBg env s bg).full = s.full := by
  cases bg <;> rfl

theorem BackgroundPreviewBox.updateServiceBg_scaled (env : Env) (s : BoxState)
    (bg : Option Color) :
    (BackgroundPreviewBox.updateServiceBg env s bg).scaled = s.scaled := by
  cases bg <;> rfl

theorem BackgroundPreviewBox.updateServiceBg_blurred (env : Env) (s : BoxState)
    (bg : Option Color) :
    (BackgroundPreviewBox.updateServiceBg env s bg).blurred = s.blurred := by
  cases bg <;> rfl

theorem BackgroundPreviewBox.updateServiceBg_blur (env : Env) (s : BoxState)
    (bg : Option Color) :
    (BackgroundPreviewBox.updateServiceBg env s bg).blur = s.blur := by
  cases bg <;> rfl

theorem BackgroundPreviewBox.updateServiceBg_radial (env : Env) (s : BoxState)
    (bg : Option Color) :
    (BackgroundPreviewBox.updateServiceBg env s bg).radial = s.radial := by
  cases bg <;> rfl

theorem BackgroundPreviewBox.updateServiceBg_generating (env : Env)
    (s : BoxState) (bg : Option Color) :
    (BackgroundPreviewBox.updateServiceBg env s bg).generating = s.generating := by
  cases bg <;> rfl

theorem BackgroundPreviewBox.updateServiceBg_shareButton (env : Env)
    (s : BoxState) (bg : Option Color) :
    (BackgroundPreviewBox.updateServiceBg env s bg).shareButton = s.shareButton := by
  cases bg <;> rfl

theorem BackgroundPreviewBox.setScaledFromImage_paper (env : Env)
    (s : BoxState) (i : Image) (b : Option Image) :
    (BackgroundPreviewBox.setScaledFromImage env s i b).paper = s.paper := by
  unfold BackgroundPreviewBox.setScaledFromImage
    BackgroundPreviewBox.updateServiceBg BackgroundPreviewBox.startFadeInFrom
  dsimp only
  split <;> split <;> rfl

theorem BackgroundPreviewBox.setScaledFromImage_full (env : Env)
    (s : BoxState) (i : Image) (b : Option Image) :
    (BackgroundPreviewBox.setScaledFromImage env s i b).full = s.full := by
  unfold BackgroundPreviewBox.setScaledFromImage
    BackgroundPreviewBox.updateServiceBg BackgroundPreviewBox.startFadeInFrom
  dsimp only
  split <;> split <;> rfl

theorem BackgroundPreviewBox.setScaledFromImage_scaled (env : Env)
    (s : BoxState) (i : Image) (b : Option Image) :
    (BackgroundPreviewBox.setScaledFromImage env s i b).scaled = some i := by
  unfold BackgroundPreviewBox.setScaledFromImage
    BackgroundPreviewBox.updateServiceBg BackgroundPreviewBox.startFadeInFrom
  dsimp only
  split <;> split <;> rfl

theorem BackgroundPreviewBox.setScaledFromImage_blurred (env : Env)
    (s : BoxState) (i : Image) (b : Option Image) :
    (BackgroundPreviewBox.setScaledFromImage env s i b).blurred = b := by
  unfold BackgroundPreviewBox.setScaledFromImage
    BackgroundPreviewBox.updateServiceBg BackgroundPreviewBox.startFadeInFrom
  dsimp only
  split <;> split <;> rfl

theorem BackgroundPreviewBox.setScaledFromImage_radial (env : Env)
    (s : BoxState) (i : Image) (b : Option Image) :
    (BackgroundPreviewBox.setScaledFromImage env s i b).radial = s.radial := by
  unfold BackgroundPreviewBox.setScaledFromImage
    BackgroundPreviewBox.updateServiceBg BackgroundPreviewBox.startFadeInFrom
  dsimp only
  split <;> split <;> rfl

theorem BackgroundPreviewBox.setScaledFromImage_generating (env : Env)
    (s : BoxState) (i : Image) (b : Option Image) :
    (BackgroundPreviewBox.setScaledFromImage env s i b).generating
      = s.generating := by
  unfold BackgroundPreviewBox.setScaledFromImage
    BackgroundPreviewBox.updateServiceBg BackgroundPreviewBox.startFadeInFrom
  dsimp only
  split <;> split <;> rfl

theorem BackgroundPreviewBox.setScaledFromImage_blur (env : Env)
    (s : BoxState) (i : Image) (b : Option Image) :
    (BackgroundPreviewBox.setScaledFromImage env s i b).blur
      = if s.blur.isSome && (!s.paper.hasDocument || s.full.isSome)
        then enableBlur s.blur
        else s.blur := by
  unfold BackgroundPreviewBox.setScaledFromImage
    BackgroundPreviewBox.updateServiceBg BackgroundPreviewBox.startFadeInFrom
  dsimp only
  split <;> split <;> rfl

theorem BackgroundPreviewBox.setScaledFromThumb_paper (env : Env)
    (s : BoxState) (tl : Bool) (ti : Image) :
    (BackgroundPreviewBox.setScaledFromThumb env s tl ti).1.paper = s.paper := by
  unfold BackgroundPreviewBox.setScaledFromThumb
  dsimp only
  split
  · rfl
  split
  · rfl
  exact BackgroundPreviewBox.setScaledFromImage_paper ..

theorem BackgroundPreviewBox.setScaledFromThumb_full (env : Env)
    (s : BoxState) (tl : Bool) (ti : Image) :
    (BackgroundPreviewBox.setScaledFromThumb env s tl ti).1.full = s.full := by
  unfold BackgroundPreviewBox.setScaledFromThumb
  dsimp only
  split
  · rfl
  split
  · rfl
  exact BackgroundPreviewBox.setScaledFromImage_full ..

theorem BackgroundPreviewBox.setScaledFromThumb_radial (env : Env)
    (s : BoxState) (tl : Bool) (ti : Image) :
    (BackgroundPreviewBox.setScaledFromThumb env s tl ti).1.radial = s.radial := by
  unfold BackgroundPreviewBox.setScaledFromThumb
  dsimp only
  split
  · rfl
  split
  · rfl
  exact BackgroundPreviewBox.setScaledFromImage_radial ..

theorem BackgroundPreviewBox.setScaledFromThumb_generating (env : Env)
    (s : BoxState) (tl : Bool) (ti : Image) :
    (BackgroundPreviewBox.setScaledFromThumb env s tl ti).1.generating
      = s.generating := by
  unfold BackgroundPreviewBox.setScaledFromThumb
  dsimp only
  split
  · rfl
  split
  · rfl
  exact BackgroundPreviewBox.setScaledFromImage_generating ..

theorem BackgroundPreviewBox.setScaledFromThumb_blur (env : Env)
    (s : BoxState) (tl : Bool) (ti : Image) :
    (BackgroundPreviewBox.setScaledFromThumb env s tl ti).1.blur = s.blur
    ∨ ((BackgroundPreviewBox.setScaledFromThumb env s tl ti).1.blur
        = enableBlur s.blur
      ∧ (s.paper.hasDocument = false ∨ s.full.isSome = true)) := by
  unfold BackgroundPreviewBox.setScaledFromThumb
  dsimp only
  split
  · exact Or.inl rfl
  split
  · exact Or.inl rfl
  rw [BackgroundPreviewBox.setScaledFromImage_blur]
  split
  · next h =>
    refine Or.inr ⟨rfl, ?_⟩
    rcases Bool.and_eq_true .. |>.mp h with ⟨-, h2⟩
    rcases Bool.or_eq_true .. |>.mp h2 with h3 | h3
    · exact Or.inl (by simpa using h3)
    · exact Or.inr h3
  · exact Or.inl rfl

theorem BackgroundPreviewBox.createBlurCheckbox_blur (s : BoxState) :
    (BackgroundPreviewBox.createBlurCheckbox s).blur
      = some { checked := s.paper.isBlurred, disabled := true } := rfl

theorem BackgroundPreviewBox.createBlurCheckbox_paper (s : BoxState) :
    (BackgroundPreviewBox.createBlurCheckbox s).paper = s.paper := rfl

theorem BackgroundPreviewBox.createBlurCheckbox_radial (s : BoxState) :
    (BackgroundPreviewBox.createBlurCheckbox s).radial = s.radial := rfl

theorem BackgroundPreviewBox.createBlurCheckbox_full (s : BoxState) :
    (BackgroundPreviewBox.createBlurCheckbox s).full = s.full := rfl

theorem BackgroundPreviewBox.checkBlurAnimationStart_blur (s : BoxState) :
    (BackgroundPreviewBox.checkBlurAnimationStart s).blur = s.blur := by
  unfold BackgroundPreviewBox.checkBlurAnimationStart
    BackgroundPreviewBox.startFadeInFrom
  split <;> rfl

theorem BackgroundPreviewBox.checkBlurAnimationStart_full (s : BoxState) :
    (BackgroundPreviewBox.checkBlurAnimationStart s).full = s.full := by
  unfold BackgroundPreviewBox.checkBlurAnimationStart
    BackgroundPreviewBox.startFadeInFrom
  split <;> rfl

theorem BackgroundPreviewBox.checkBlurAnimationStart_radial (s : BoxState) :
    (BackgroundPreviewBox.checkBlurAnimationStart s).radial = s.radial := by
  unfold BackgroundPreviewBox.checkBlurAnimationStart
    BackgroundPreviewBox.startFadeInFrom
  split <;> rfl

theorem BackgroundPreviewBox.checkBlurAnimationStart_generating (s : BoxState) :
    (BackgroundPreviewBox.checkBlurAnimationStart s).generating
      = s.generating := by
  unfold BackgroundPreviewBox.checkBlurAnimationStart
    BackgroundPreviewBox.startFadeInFrom
  split <;> rfl

theorem BackgroundPreviewBox.checkBlurAnimationStart_hasDocument (s : BoxState) :
    (BackgroundPreviewBox.checkBlurAnimationStart s).paper.hasDocument
      = s.paper.hasDocument := by
  unfold BackgroundPreviewBox.checkBlurAnimationStart
    BackgroundPreviewBox.startFadeInFrom
  split <;> rfl

theorem BackgroundPreviewBox.checkBlurAnimationStart_hasThumbnail (s : BoxState) :
    (BackgroundPreviewBox.checkBlurAnimationStart s).paper.hasThumbnail
      = s.paper.hasThumbnail := by
  unfold BackgroundPreviewBox.checkBlurAnimationStart
    BackgroundPreviewBox.startFadeInFrom
  split <;> rfl

theorem BackgroundPreviewBox.checkBlurAnimationStart_isPattern (s : BoxState) :
    (BackgroundPreviewBox.checkBlurAnimationStart s).paper.isPattern
      = s.paper.isPattern := by
  unfold BackgroundPreviewBox.checkBlurAnimationStart
    BackgroundPreviewBox.startFadeInFrom
  split <;> rfl

theorem BackgroundPreviewBox.checkLoadedDocument_paper (s : BoxState)
    (dl : Bool) :
    (BackgroundPreviewBox.checkLoadedDocument s dl).paper = s.paper := by
  unfold BackgroundPreviewBox.checkLoadedDocument
  split <;> rfl

theorem BackgroundPreviewBox.checkLoadedDocument_radial (s : BoxState)
    (dl : Bool) :
    (BackgroundPreviewBox.checkLoadedDocument s dl).radial = s.radial := by
  unfold BackgroundPreviewBox.checkLoadedDocument
  split <;> rfl

theorem BackgroundPreviewBox.checkLoadedDocument_blur (s : BoxState)
    (dl : Bool) :
    (BackgroundPreviewBox.checkLoadedDocument s dl).blur = s.blur := by
  unfold BackgroundPreviewBox.checkLoadedDocument
  split <;> rfl

theorem BackgroundPreviewBox.checkLoadedDocument_full (s : BoxState)
    (dl : Bool) :
    (BackgroundPreviewBox.checkLoadedDocument s dl).full = s.full := by
  unfold BackgroundPreviewBox.checkLoadedDocument
  split <;> rfl

theorem BackgroundPreviewBox.step_radial_paper (s : BoxState) (p : Rat)
    (loading loaded : Bool) :
    (BackgroundPreviewBox.step_radial s p loading loaded).paper = s.paper := by
  unfold BackgroundPreviewBox.step_radial
  rw [BackgroundPreviewBox.checkLoadedDocument_paper]

theorem BackgroundPreviewBox.step_radial_radial (s : BoxState) (p : Rat)
    (loading loaded : Bool) :
    (BackgroundPreviewBox.step_radial s p loading loaded).radial
      = s.radial.update p (!loading) := by
  unfold BackgroundPreviewBox.step_radial
  rw [BackgroundPreviewBox.checkLoadedDocument_radial]

theorem BackgroundPreviewBox.step_radial_blur (s : BoxState) (p : Rat)
    (loading loaded : Bool) :
    (BackgroundPreviewBox.step_radial s p loading loaded).blur = s.blur := by
  unfold BackgroundPreviewBox.step_radial
  rw [BackgroundPreviewBox.checkLoadedDocument_blur]

theorem BackgroundPreviewBox.step_radial_full (s : BoxState) (p : Rat)
    (loading loaded : Bool) :
    (BackgroundPreviewBox.step_radial s p loading loaded).full = s.full := by
  unfold BackgroundPreviewBox.step_radial
  rw [BackgroundPreviewBox.checkLoadedDocument_full]

theorem BackgroundPreviewBox.paintRadialState_paper (s : BoxState) :
    (BackgroundPreviewBox.paintRadialState s).paper = s.paper := by
  unfold BackgroundPreviewBox.paintRadialState
  split <;> rfl

theorem BackgroundPreviewBox.paintRadialState_blur (s : BoxState) :
    (BackgroundPreviewBox.paintRadialState s).blur = s.blur := by
  unfold BackgroundPreviewBox.paintRadialState
  split <;> rfl

theorem BackgroundPreviewBox.paintRadialState_full (s : BoxState) :
    (BackgroundPreviewBox.paintRadialState s).full = s.full := by
  unfold BackgroundPreviewBox.paintRadialState
  split <;> rfl

theorem BackgroundPreviewBox.paintRadialState_animating (s : BoxState) :
    (BackgroundPreviewBox.paintRadialState s).radial.animating = true →
      s.radial.animating = true := by
  unfold BackgroundPreviewBox.paintRadialState
  split
  · exact fun h => RadialState.step_animating _ h
  · exact fun h => h

/-! The `StepOk` preservation relation. -/

theorem stepOk_refl (s : BoxState) : StepOk s s := by
  refine ⟨rfl, rfl, rfl, fun h => h, fun h => h, fun h => h, fun h => Or.inl h⟩

theorem stepOk_trans {s t u : BoxState} (h1 : StepOk s t) (h2 : StepOk t u) :
    StepOk s u := by
  obtain ⟨d1, th1, p1, r1, b1, f1, e1⟩ := h1
  obtain ⟨d2, th2, p2, r2, b2, f2, e2⟩ := h2
  refine ⟨d2.trans d1, th2.trans th1, p2.trans p1,
    fun h => r1 (r2 h), fun h => b1 (b2 h), fun h => f2 (f1 h), ?_⟩
  intro h
  rcases e2 h with h' | h' | h'
  · rcases e1 h' with h'' | h'' | h''
    · exact Or.inl h''
    · exact Or.inr (Or.inl (d2.trans h''))
    · exact Or.inr (Or.inr (f2 h''))
  · exact Or.inr (Or.inl h')
  · exact Or.inr (Or.inr h')

theorem stepOk_of_eq {s t : BoxState} (hp : t.paper = s.paper)
    (hr : t.radial = s.radial) (hb : t.blur = s.blur) (hf : t.full = s.full) :
    StepOk s t := by
  refine ⟨by rw [hp], by rw [hp], by rw [hp], by rw [hr]; exact fun h => h,
    by rw [hb]; exact fun h => h, by rw [hf]; exact fun h => h, ?_⟩
  intro h
  exact Or.inl (by rw [blurEnabled_eq_of_blur_eq hb] at h; exact h)

theorem stepOk_setScaledFromImage (env : Env) (s : BoxState) (i : Image)
    (b : Option Image) :
    StepOk s (BackgroundPreviewBox.setScaledFromImage env s i b) := by
  have hp := BackgroundPreviewBox.setScaledFromImage_paper env s i b
  have hf := BackgroundPreviewBox.setScaledFromImage_full env s i b
  have hr := BackgroundPreviewBox.setScaledFromImage_radial env s i b
  have hb := BackgroundPreviewBox.setScaledFromImage_blur env s i b
  refine ⟨by rw [hp], by rw [hp], by rw [hp], by rw [hr]; exact fun h => h,
    ?_, by rw [hf]; exact fun h => h, ?_⟩
  · rw [hb]
    split
    · simp
    · exact fun h => h
  · intro h
    by_cases hc : (s.blur.isSome && (!s.paper.hasDocument || s.full.isSome)) = true
    · rcases Bool.and_eq_true .. |>.mp hc with ⟨-, h2⟩
      rcases Bool.or_eq_true .. |>.mp h2 with h3 | h3
      · exact Or.inr (Or.inl (by rw [hp]; simpa using h3))
      · exact Or.inr (Or.inr (by rw [hf]; exact h3))
    · unfold blurEnabled at h
      rw [hb, if_neg hc] at h
      exact Or.inl h

theorem stepOk_setScaledFromThumb (env : Env) (s : BoxState) (tl : Bool)
    (ti : Image) :
    StepOk s (BackgroundPreviewBox.setScaledFromThumb env s tl ti).1 := by
  unfold BackgroundPreviewBox.setScaledFromThumb
  dsimp only
  split
  · exact stepOk_refl s
  split
  · exact stepOk_refl s
  exact stepOk_setScaledFromImage ..

theorem stepOk_checkBlurAnimationStart (s : BoxState) :
    StepOk s (BackgroundPreviewBox.checkBlurAnimationStart s) := by
  have hb := BackgroundPreviewBox.checkBlurAnimationStart_blur s
  have hf := BackgroundPreviewBox.checkBlurAnimationStart_full s
  have hr := BackgroundPreviewBox.checkBlurAnimationStart_radial s
  refine ⟨BackgroundPreviewBox.checkBlurAnimationStart_hasDocument s,
    BackgroundPreviewBox.checkBlurAnimationStart_hasThumbnail s,
    BackgroundPreviewBox.checkBlurAnimationStart_isPattern s,
    by rw [hr]; exact fun h => h, by rw [hb]; exact fun h => h,
    by rw [hf]; exact fun h => h, ?_⟩
  intro h
  exact Or.inl (by rw [blurEnabled_eq_of_blur_eq hb] at h; exact h)

theorem stepOk_checkLoadedDocument (s : BoxState) (dl : Bool) :
    StepOk s (BackgroundPreviewBox.checkLoadedDocument s dl) :=
  stepOk_of_eq (BackgroundPreviewBox.checkLoadedDocument_paper s dl)
    (BackgroundPreviewBox.checkLoadedDocument_radial s dl)
    (BackgroundPreviewBox.checkLoadedDocument_blur s dl)
    (BackgroundPreviewBox.checkLoadedDocument_full s dl)

theorem stepOk_paintRadialState (s : BoxState) :
    StepOk s (BackgroundPreviewBox.paintRadialState s) := by
  have hb := BackgroundPreviewBox.paintRadialState_blur s
  refine ⟨by rw [BackgroundPreviewBox.paintRadialState_paper],
    by rw [BackgroundPreviewBox.paintRadialState_paper],
    by rw [BackgroundPreviewBox.paintRadialState_paper],
    BackgroundPreviewBox.paintRadialState_animating s,
    by rw [hb]; exact fun h => h,
    by rw [BackgroundPreviewBox.paintRadialState_full]; exact fun h => h, ?_⟩
  intro h
  exact Or.inl (by rw [blurEnabled_eq_of_blur_eq hb] at h; exact h)

theorem stepOk_step_radial (s : BoxState) (p : Rat) (loading loaded : Bool) :
    StepOk s (BackgroundPreviewBox.step_radial s p loading loaded) := by
  have hr := BackgroundPreviewBox.step_radial_radial s p loading loaded
  refine ⟨by rw [BackgroundPreviewBox.step_radial_paper],
    by rw [BackgroundPreviewBox.step_radial_paper],
    by rw [BackgroundPreviewBox.step_radial_paper],
    by rw [hr]; simp,
    by rw [BackgroundPreviewBox.step_radial_blur]; exact fun h => h,
    by rw [BackgroundPreviewBox.step_radial_full]; exact fun h => h, ?_⟩
  intro h
  have hb := BackgroundPreviewBox.step_radial_blur s p loading loaded
  exact Or.inl (by rw [blurEnabled_eq_of_blur_eq hb] at h; exact h)

theorem stepOk_paintEvent (env : Env) (s : BoxState) (tl : Bool) (ti : Image) :
    StepOk s (BackgroundPreviewBox.paintEvent env s tl ti) := by
  unfold BackgroundPreviewBox.paintEvent
  dsimp only
  split
  · split
    · exact stepOk_trans (stepOk_checkBlurAnimationStart s)
        (stepOk_paintRadialState _)
    · split
      · exact stepOk_trans (stepOk_setScaledFromThumb env s tl ti)
          (stepOk_trans (stepOk_checkBlurAnimationStart _)
            (stepOk_paintRadialState _))
      · split
        · exact stepOk_setScaledFromThumb env s tl ti
        · exact stepOk_trans (stepOk_setScaledFromThumb env s tl ti)
            (stepOk_paintRadialState _)
  · exact stepOk_refl s

theorem stepOk_blurToggled (s : BoxState) (checked : Bool) :
    StepOk s (BackgroundPreviewBox.blurToggled s checked) := by
  unfold BackgroundPreviewBox.blurToggled
  split
  · exact stepOk_refl s
  · next cb heq =>
    refine stepOk_trans ?_ (stepOk_checkBlurAnimationStart _)
    refine ⟨rfl, rfl, rfl, fun h => h, fun _ => by rw [heq]; rfl,
      fun h => h, ?_⟩
    intro h
    refine Or.inl ?_
    rw [blurEnabled_some heq]
    exact h

theorem stepOk_onDecodeDone (env : Env) (s : BoxState) (g : Nat)
    (image scaled : Image) (blurred : Option Image) :
    StepOk s (BackgroundPreviewBox.onDecodeDone env s g image scaled blurred) := by
  unfold BackgroundPreviewBox.onDecodeDone
  split
  · refine stepOk_trans ?_
      (stepOk_setScaledFromImage env { s with full := some image } scaled blurred)
    exact ⟨rfl, rfl, rfl, fun h => h, fun h => h, fun _ => rfl, fun h => Or.inl h⟩
  · exact stepOk_refl s

theorem stepOk_stepEvent (env : Env) (s : BoxState) (e : BoxEvent) :
    StepOk s (stepEvent env s e) := by
  cases e with
  | paint tl ti => exact stepOk_paintEvent env s tl ti
  | radialTick p loading loaded =>
    show StepOk s (if s.radial.animating = true
      then BackgroundPreviewBox.step_radial s p loading loaded else s)
    split
    · exact stepOk_step_radial s p loading loaded
    · exact stepOk_refl s
  | toggleBlur checked => exact stepOk_blurToggled s checked
  | decodeDone g i sc bl => exact stepOk_onDecodeDone env s g i sc bl
  | fadeDone =>
    exact stepOk_of_eq rfl rfl rfl rfl

theorem stepOk_run (env : Env) (s : BoxState) (es : List BoxEvent) :
    StepOk s (run env s es) := by
  induction es generalizing s with
  | nil => exact stepOk_refl s
  | cons e es ih =>
    exact stepOk_trans (stepOk_stepEvent env s e) (ih (stepEvent env s e))

theorem BackgroundPreviewBox.setScaledFromImage_shareButton (env : Env)
    (s : BoxState) (i : Image) (b : Option Image) :
    (BackgroundPreviewBox.setScaledFromImage env s i b).shareButton
      = s.shareButton := by
  unfold BackgroundPreviewBox.setScaledFromImage
    BackgroundPreviewBox.updateServiceBg BackgroundPreviewBox.startFadeInFrom
  dsimp only
  split <;> split <;> rfl

theorem BackgroundPreviewBox.setScaledFromThumb_shareButton (env : Env)
    (s : BoxState) (tl : Bool) (ti : Image) :
    (BackgroundPreviewBox.setScaledFromThumb env s tl ti).1.shareButton
      = s.shareButton := by
  unfold BackgroundPreviewBox.setScaledFromThumb
  dsimp only
  split
  · rfl
  split
  · rfl
  exact BackgroundPreviewBox.setScaledFromImage_shareButton ..

theorem BackgroundPreviewBox.checkLoadedDocument_shareButton (s : BoxState)
    (dl : Bool) :
    (BackgroundPreviewBox.checkLoadedDocument s dl).shareButton
      = s.shareButton := by
  unfold BackgroundPreviewBox.checkLoadedDocument
  split <;> rfl

theorem BackgroundPreviewBox.prepare_paper (env : Env) (s : BoxState)
    (docLoading : Bool) (docProgress : Rat) (tl : Bool) (ti : Image)
    (docLoaded : Bool) :
    (BackgroundPreviewBox.prepare env s docLoading docProgress tl ti
      docLoaded).paper = s.paper := by
  unfold BackgroundPreviewBox.prepare
  dsimp only
  rw [BackgroundPreviewBox.checkLoadedDocument_paper,
    BackgroundPreviewBox.setScaledFromThumb_paper]
  split <;> split <;>
    simp [BackgroundPreviewBox.createBlurCheckbox_paper,
      BackgroundPreviewBox.updateServiceBg_paper]

theorem BackgroundPreviewBox.prepare_radial (env : Env) (s : BoxState)
    (docLoading : Bool) (docProgress : Rat) (tl : Bool) (ti : Image)
    (docLoaded : Bool) :
    (BackgroundPreviewBox.prepare env s docLoading docProgress tl ti
      docLoaded).radial
      = if s.paper.hasDocument && docLoading
        then RadialState.start docProgress
        else s.radial := by
  unfold BackgroundPreviewBox.prepare
  dsimp only
  rw [BackgroundPreviewBox.checkLoadedDocument_radial,
    BackgroundPreviewBox.setScaledFromThumb_radial]
  split_ifs with h1 h2 h3 h4 <;>
    simp_all [BackgroundPreviewBox.createBlurCheckbox,
      BackgroundPreviewBox.updateServiceBg_radial,
      BackgroundPreviewBox.updateServiceBg_paper]

theorem BackgroundPreviewBox.prepare_shareButton (env : Env) (s : BoxState)
    (docLoading : Bool) (docProgress : Rat) (tl : Bool) (ti : Image)
    (docLoaded : Bool) :
    (BackgroundPreviewBox.prepare env s docLoading docProgress tl ti
      docLoaded).shareButton = s.paper.shareUrlHas := by
  unfold BackgroundPreviewBox.prepare
  dsimp only
  rw [BackgroundPreviewBox.checkLoadedDocument_shareButton,
    BackgroundPreviewBox.setScaledFromThumb_shareButton]
  split_ifs <;>
    simp [BackgroundPreviewBox.createBlurCheckbox,
      BackgroundPreviewBox.updateServiceBg_shareButton]

/-! Transport of the two invariants along `StepOk`, and their establishment
by `prepare`. -/

theorem radialDocInv_of_stepOk {s t : BoxState} (hs : RadialDocInv s)
    (h : StepOk s t) : RadialDocInv t := by
  obtain ⟨hd, -, -, hr, -, -, -⟩ := h
  intro ha
  rw [hd]
  exact hs (hr ha)

theorem blurInv_of_stepOk {s t : BoxState} (hs : BlurInv s) (h : StepOk s t) :
    BlurInv t := by
  obtain ⟨hd, hth, hp, hr, hb, hf, he⟩ := h
  obtain ⟨h1, h2⟩ := hs
  constructor
  · intro hbt
    have h' := h1 (hb hbt)
    exact ⟨by rw [hth]; exact h'.1, by rw [hp]; exact h'.2⟩
  · intro het
    rcases he het with h' | h' | h'
    · rcases h2 h' with h'' | h''
      · exact Or.inl (by rw [hd]; exact h'')
      · exact Or.inr (hf h'')
    · exact Or.inl h'
    · exact Or.inr h'

theorem radialDocInv_prepare (env : Env) (paper : WallPaper)
    (docLoading : Bool) (docProgress : Rat) (tl : Bool) (ti : Image)
    (docLoaded : Bool) :
    RadialDocInv (BackgroundPreviewBox.prepare env (BoxState.init paper)
      docLoading docProgress tl ti docLoaded) := by
  intro ha
  rw [BackgroundPreviewBox.prepare_paper]
  rw [BackgroundPreviewBox.prepare_radial] at ha
  by_cases hc : ((BoxState.init paper).paper.hasDocument && docLoading) = true
  · exact (Bool.and_eq_true .. |>.mp hc).1
  · rw [if_neg hc] at ha
    exact absurd ha (by simp [BoxState.init])

theorem blurInv_prepare (env : Env) (paper : WallPaper)
    (docLoading : Bool) (docProgress : Rat) (tl : Bool) (ti : Image)
    (docLoaded : Bool) :
    BlurInv (BackgroundPreviewBox.prepare env (BoxState.init paper)
      docLoading docProgress tl ti docLoaded) := by
  have hb2 : (∀ t : BoxState, t.blur = none → BlurInv t) := by
    intro t ht
    constructor
    · intro hb
      rw [ht] at hb
      simp at hb
    · intro he
      unfold blurEnabled at he
      rw [ht] at he
      simp at he
  have hcreate : (∀ t : BoxState,
      (t.paper.hasThumbnail && !t.paper.isPattern) = true →
      BlurInv (BackgroundPreviewBox.createBlurCheckbox t)) := by
    intro t ht
    constructor
    · intro _
      rw [BackgroundPreviewBox.createBlurCheckbox_paper]
      have h' := Bool.and_eq_true .. |>.mp ht
      exact ⟨h'.1, by simpa using h'.2⟩
    · intro he
      refine absurd he ?_
      rw [blurEnabled_some (BackgroundPreviewBox.createBlurCheckbox_blur _)]
      simp
  unfold BackgroundPreviewBox.prepare
  dsimp only
  refine blurInv_of_stepOk ?_
    (stepOk_trans (stepOk_setScaledFromThumb _ _ _ _)
      (stepOk_checkLoadedDocument _ _))
  split <;> split
  · rename_i h
    exact hcreate _ h
  · refine hb2 _ ?_
    simp [BackgroundPreviewBox.updateServiceBg_blur, BoxState.init]
  · rename_i h
    exact hcreate _ h
  · refine hb2 _ ?_
    simp [BackgroundPreviewBox.updateServiceBg_blur, BoxState.init]

/-! Characterization of the slug validator. -/

theorem isBadSlugChar_false_iff (c : Char) :
    isBadSlugChar c = false ↔ isGoodSlugChar c = true := by
  unfold isBadSlugChar isGoodSlugChar
  simp only [Bool.and_eq_false_iff, Bool.or_eq_false_iff, Bool.or_eq_true,
    Bool.and_eq_true, bne_eq_false_iff_eq, beq_iff_eq,
    decide_eq_false_iff_not, decide_eq_true_eq, not_lt]

theorem IsValidWallPaperSlug_iff (slug : List Char) :
    IsValidWallPaperSlug slug = true
      ↔ slug ≠ [] ∧ slug.length ≤ kMaxWallPaperSlugLength
        ∧ ∀ c ∈ slug, isGoodSlugChar c = true := by
  unfold IsValidWallPaperSlug
  split
  · next h =>
    simp only [Bool.false_eq_true, false_iff]
    rcases Bool.or_eq_true .. |>.mp h with h' | h'
    · intro hc
      exact hc.1 (List.isEmpty_iff.mp h')
    · intro hc
      exact absurd hc.2.1 (by simpa using h')
  · next h =>
    rw [Bool.or_eq_true, not_or] at h
    obtain ⟨h1, h2⟩ := h
    simp only [Option.isNone_iff_eq_none, List.find?_eq_none]
    constructor
    · intro hall
      refine ⟨by simpa [List.isEmpty_iff] using h1, by simpa using h2, ?_⟩
      intro c hc
      exact (isBadSlugChar_false_iff c).mp (Bool.not_eq_true _ |>.mp (hall c hc))
    · rintro ⟨-, -, hall⟩ c hc
      exact Bool.not_eq_true _ |>.mpr ((isBadSlugChar_false_iff c).mpr (hall c hc))

/-! The claims. -/

/-- C1: the main-thread completion of the async decode started by
`checkLoadedDocument` mutates the box state — it stores the decoded image
into `_full` and hands the scaled/blurred pixmaps to `setScaledFromImage` —
only when its binary guard is still the live one; a completion whose guard
was destroyed or superseded by a newer decode generation leaves the box
state unchanged. -/
theorem claim_C1_decode_guard (env : Env) (s : BoxState) (g : Nat)
    (image scaled : Image) (blurred : Option Image) :
    (s.generating = some g →
      BackgroundPreviewBox.onDecodeDone env s g image scaled blurred
        = BackgroundPreviewBox.setScaledFromImage env
            { s with full := some image } scaled blurred
      ∧ (BackgroundPreviewBox.onDecodeDone env s g image scaled blurred).full
          = some image
      ∧ (BackgroundPreviewBox.onDecodeDone env s g image scaled blurred).scaled
          = some scaled
      ∧ (BackgroundPreviewBox.onDecodeDone env s g image scaled blurred).blurred
          = blurred)
    ∧ (s.generating ≠ some g →
      BackgroundPreviewBox.onDecodeDone env s g image scaled blurred = s) := by
  constructor
  · intro h
    unfold BackgroundPreviewBox.onDecodeDone
    rw [if_pos h]
    refine ⟨rfl, ?_, ?_, ?_⟩
    · rw [BackgroundPreviewBox.setScaledFromImage_full]
    · exact BackgroundPreviewBox.setScaledFromImage_scaled ..
    · exact BackgroundPreviewBox.setScaledFromImage_blurred ..
  · intro h
    unfold BackgroundPreviewBox.onDecodeDone
    rw [if_neg h]

/-- Witness for C1: a completion with the live guard of generation 1 applies
`setScaledFromImage`, and the same completion on a state whose guard was
destroyed leaves the state unchanged. -/
theorem claim_C1_decode_guard_witness :
    BackgroundPreviewBox.onDecodeDone envW stateW 1 7 8 none
      = BackgroundPreviewBox.setScaledFromImage envW
          { stateW with full := some 7 } 8 none
    ∧ BackgroundPreviewBox.onDecodeDone envW
        { stateW with generating := none } 1 7 8 none
      = { stateW with generating := none } :=
  ⟨((claim_C1_decode_guard envW stateW 1 7 8 none).1 rfl).1,
    (claim_C1_decode_guard envW { stateW with generating := none }
      1 7 8 none).2 (by simp)⟩

/-- C2: `apply` always sets the chat background to the previewed paper with
the currently decoded full image and closes the box, and it sends
`account.installWallPaper` exactly when the paper is a cloud wallpaper
whose id differs from the installed background's id. -/
theorem claim_C2_apply (s : BoxState) (installedId : Nat) :
    (BackgroundPreviewBox.apply s installedId).backgroundPaper = s.paper
    ∧ (BackgroundPreviewBox.apply s installedId).backgroundImage = s.full
    ∧ (BackgroundPreviewBox.apply s installedId).closed = true
    ∧ ((BackgroundPreviewBox.apply s installedId).sentInstall = true
        ↔ s.paper.isCloud = true ∧ s.paper.id ≠ installedId) := by
  refine ⟨rfl, rfl, rfl, ?_⟩
  unfold BackgroundPreviewBox.apply
  dsimp only
  rw [Bool.and_eq_true]
  simp only [decide_eq_true_eq]
  exact and_comm

/-- C3: `share` copies exactly the paper's share URL to the clipboard and
shows the "link copied" toast, and the share button is added by `prepare`
exactly when the paper has a share URL. -/
theorem claim_C3_share (env : Env) (s : BoxState) (paper : WallPaper)
    (docLoading : Bool) (docProgress : Rat) (tl : Bool) (ti : Image)
    (docLoaded : Bool) :
    (BackgroundPreviewBox.share s).clipboardText = s.paper.shareUrlText
    ∧ (BackgroundPreviewBox.share s).toastLinkCopied = true
    ∧ ((BackgroundPreviewBox.prepare env (BoxState.init paper) docLoading
        docProgress tl ti docLoaded).shareButton = true
      ↔ paper.shareUrlHas = true) :=
  ⟨rfl, rfl, by rw [BackgroundPreviewBox.prepare_shareButton]; exact Iff.rfl⟩

/-- C4: when the checkbox's checked state differs from the paper's blurred
flag, the blurred pixmap is non-null, the checkbox exists and no fade-in
animation is running, `checkBlurAnimationStart` replaces `_paper` with
`_paper.withBlurred(checked)` and starts a cross-fade from the previously
shown pixmap; in every other case it leaves the state, `_paper` included,
unchanged. -/
theorem claim_C4_blur_toggle (s : BoxState) :
    ((s.fadeInAnimating = false ∧ s.blurred.isSome = true
        ∧ s.blur.isSome = true ∧ s.paper.isBlurred ≠ blurChecked s.blur) →
      (BackgroundPreviewBox.checkBlurAnimationStart s).paper
          = s.paper.withBlurred (blurChecked s.blur)
      ∧ BackgroundPreviewBox.checkBlurAnimationStart s
          = BackgroundPreviewBox.startFadeInFrom
              { s with paper := s.paper.withBlurred (blurChecked s.blur) }
              (BackgroundPreviewBox.shownPixmap s))
    ∧ (¬(s.fadeInAnimating = false ∧ s.blurred.isSome = true
        ∧ s.blur.isSome = true ∧ s.paper.isBlurred ≠ blurChecked s.blur) →
      BackgroundPreviewBox.checkBlurAnimationStart s = s) := by
  constructor
  · rintro ⟨hf, hb, hbs, hne⟩
    have hcond : (s.fadeInAnimating || s.blurred.isNone || s.blur.isNone
        || (s.paper.isBlurred == blurChecked s.blur)) = false := by
      rw [hf]
      cases hbl : s.blurred with
      | none => rw [hbl] at hb; simp at hb
      | some v =>
        cases hcb : s.blur with
        | none => rw [hcb] at hbs; simp at hbs
        | some cb =>
          rw [hcb] at hne
          simp only [blurChecked] at hne
          simp [blurChecked, hne]
    have hshown : (if (s.paper.withBlurred (blurChecked s.blur)).isBlurred
        then s.scaled else s.blurred) = BackgroundPreviewBox.shownPixmap s := by
      unfold BackgroundPreviewBox.shownPixmap
      rw [WallPaper.withBlurred_isBlurred]
      cases hbc : blurChecked s.blur with
      | true =>
        have : s.paper.isBlurred = false := by
          cases hpb : s.paper.isBlurred
          · rfl
          · exact absurd (hpb.trans hbc.symm) hne
        rw [if_pos rfl, this]
        simp
      | false =>
        have : s.paper.isBlurred = true := by
          cases hpb : s.paper.isBlurred
          · exact absurd (hpb.trans hbc.symm) hne
          · rfl
        rw [this, hb]
        simp
    unfold BackgroundPreviewBox.checkBlurAnimationStart
    rw [hcond]
    simp only [Bool.false_eq_true, if_false]
    rw [hshown]
    exact ⟨rfl, rfl⟩
  · intro hnot
    unfold BackgroundPreviewBox.checkBlurAnimationStart
    split
    · rfl
    · next hcond =>
      exfalso
      apply hnot
      simp only [Bool.or_eq_true, not_or] at hcond
      obtain ⟨⟨⟨h1, h2⟩, h3⟩, h4⟩ := hcond
      refine ⟨by simpa using h1, ?_, ?_, by simpa using h4⟩
      · cases hbl : s.blurred
        · rw [hbl] at h2; simp at h2
        · rfl
      · cases hcb : s.blur
        · rw [hcb] at h3; simp at h3
        · rfl

/-- Witness for C4: on a concrete state with an unchecked enabled checkbox,
a blurred paper, a non-null blurred pixmap and no fade-in running,
`checkBlurAnimationStart` replaces the paper with its unblurred copy. -/
theorem claim_C4_blur_toggle_witness :
    (BackgroundPreviewBox.checkBlurAnimationStart stateW).paper
      = stateW.paper.withBlurred false :=
  ((claim_C4_blur_toggle stateW).1 ⟨rfl, rfl, rfl, by decide⟩).1

/-- C5: `prepare` starts the radial at the document's progress exactly when
the paper has a document that is loading; `step_radial` feeds the radial
the document's current progress and marks it finished exactly when the
document is no longer loading; and a radial that is not animating makes
`paintRadial` draw nothing. -/
theorem claim_C5_radial (env : Env) (paper : WallPaper) (docLoading : Bool)
    (docProgress : Rat) (tl : Bool) (ti : Image) (docLoaded : Bool)
    (s : BoxState) (p : Rat) (loading loaded : Bool) :
    ((BackgroundPreviewBox.prepare env (BoxState.init paper) docLoading
        docProgress tl ti docLoaded).radial.animating
      = (paper.hasDocument && docLoading))
    ∧ ((paper.hasDocument && docLoading) = true →
      (BackgroundPreviewBox.prepare env (BoxState.init paper) docLoading
        docProgress tl ti docLoaded).radial.progress = docProgress)
    ∧ (BackgroundPreviewBox.step_radial s p loading loaded).radial.progress = p
    ∧ (BackgroundPreviewBox.step_radial s p loading loaded).radial.finished
        = !loading
    ∧ (s.radial.animating = false →
      BackgroundPreviewBox.paintRadialDraws s = false) := by
  refine ⟨?_, ?_, ?_, ?_, ?_⟩
  · rw [BackgroundPreviewBox.prepare_radial]
    split
    · next h => exact h.symm
    · next h => exact (Bool.not_eq_true _ |>.mp h).symm
  · intro h
    rw [BackgroundPreviewBox.prepare_radial,
      if_pos (show ((BoxState.init paper).paper.hasDocument && docLoading)
        = true from h)]
    rfl
  · rw [BackgroundPreviewBox.step_radial_radial]
    simp
  · rw [BackgroundPreviewBox.step_radial_radial]
    simp
  · intro h
    unfold BackgroundPreviewBox.paintRadialDraws
    rw [h]
    rfl

/-- Witness for C5: on a concrete loading document, `prepare` starts the
radial at progress one half, and an idle radial draws nothing. -/
theorem claim_C5_radial_witness :
    (BackgroundPreviewBox.prepare envW (BoxState.init paperW) true (1/2)
      true 2 false).radial.progress = 1/2
    ∧ BackgroundPreviewBox.paintRadialDraws (BoxState.init paperW) = false :=
  ⟨(claim_C5_radial envW paperW true (1/2) true 2 false
      (BoxState.init paperW) 0 true true).2.1 rfl,
    (claim_C5_radial envW paperW true (1/2) true 2 false
      (BoxState.init paperW) 0 true true).2.2.2.2 rfl⟩

/-- C6: in every state a prepared box can reach, a running radial animation
implies the paper has a document, so the `Expects(_paper.document() !=
nullptr)` precondition of `step_radial` holds at every tick the animation
manager can deliver: the radial is started only in `prepare` when the
paper's loading document exists, and events reassign `_paper` only through
`withBlurred`, which preserves the document. -/
theorem claim_C6_radial_doc (env : Env) (paper : WallPaper)
    (docLoading : Bool) (docProgress : Rat) (tl : Bool) (ti : Image)
    (docLoaded : Bool) (events : List BoxEvent) :
    RadialDocInv (run env (BackgroundPreviewBox.prepare env
      (BoxState.init paper) docLoading docProgress tl ti docLoaded) events) :=
  radialDocInv_of_stepOk
    (radialDocInv_prepare env paper docLoading docProgress tl ti docLoaded)
    (stepOk_run env _ events)

/-- Witness for C6: a concrete prepared box whose radial is animating has a
document. -/
theorem claim_C6_radial_doc_witness :
    (run envW (BackgroundPreviewBox.prepare envW (BoxState.init paperW)
      true 0 true 2 false) []).paper.hasDocument = true :=
  claim_C6_radial_doc envW paperW true 0 true 2 false [] rfl

/-- C7: in every state a prepared box can reach, the blur checkbox exists
only when the paper has a thumbnail and is not a pattern, and it is enabled
only when the paper has no document or the full image has been decoded;
`createBlurCheckbox` creates it checked iff the paper is blurred and
disabled. -/
theorem claim_C7_blur_box (env : Env) (paper : WallPaper) (docLoading : Bool)
    (docProgress : Rat) (tl : Bool) (ti : Image) (docLoaded : Bool)
    (events : List BoxEvent) (s : BoxState) :
    BlurInv (run env (BackgroundPreviewBox.prepare env (BoxState.init paper)
      docLoading docProgress tl ti docLoaded) events)
    ∧ (BackgroundPreviewBox.createBlurCheckbox s).blur
        = some { checked := s.paper.isBlurred, disabled := true } :=
  ⟨blurInv_of_stepOk
      (blurInv_prepare env paper docLoading docProgress tl ti docLoaded)
      (stepOk_run env _ events),
    BackgroundPreviewBox.createBlurCheckbox_blur s⟩

/-- Witness for C7: the checkbox of a concrete prepared box exists, and the
paper indeed has a thumbnail and is no pattern. -/
theorem claim_C7_blur_box_witness :
    (run envW (BackgroundPreviewBox.prepare envW (BoxState.init paperW)
        true 0 true 2 false) []).paper.hasThumbnail = true
    ∧ (run envW (BackgroundPreviewBox.prepare envW (BoxState.init paperW)
        true 0 true 2 false) []).paper.isPattern = false :=
  (claim_C7_blur_box envW paperW true 0 true 2 false [] stateW).1.1 rfl

/-- C8: the frame count is `duration / AnimationTimerDelta + 2`, at least 2,
and for every animation value `toggled` in `[0, 1]` the frame index
`round(toggled * (count - 1))` computed in `Generator::paintFrame` lies in
`[0, count)`, so the `Assert` there and the `Expects` preconditions of
`FillFrame` hold. -/
theorem claim_C8_frame_index (duration delta : Nat) (toggled : Rat)
    (h0 : 0 ≤ toggled) (h1 : toggled ≤ 1) :
    2 ≤ ServiceCheck.framesCount duration delta
    ∧ 0 ≤ ServiceCheck.paintFrameIndex
        (ServiceCheck.framesCount duration delta) toggled
    ∧ ServiceCheck.paintFrameIndex
        (ServiceCheck.framesCount duration delta) toggled
      < (ServiceCheck.framesCount duration delta : Int) := by
  have hc : 2 ≤ ServiceCheck.framesCount duration delta := Nat.le_add_left 2 _
  set n := ServiceCheck.framesCount duration delta with hn
  have hcq : (2 : Rat) ≤ (n : Rat) := by exact_mod_cast hc
  have hsub : (1 : Rat) ≤ (n : Rat) - 1 := by linarith
  have hx0 : (0 : Rat) ≤ toggled * ((n : Rat) - 1) :=
    mul_nonneg h0 (by linarith)
  have hx1 : toggled * ((n : Rat) - 1) ≤ (n : Rat) - 1 :=
    mul_le_of_le_one_left (by linarith) h1
  refine ⟨hc, ?_, ?_⟩
  · unfold ServiceCheck.paintFrameIndex
    rw [round_eq]
    exact Int.floor_nonneg.mpr (by linarith)
  · unfold ServiceCheck.paintFrameIndex
    rw [round_eq]
    refine Int.floor_lt.mpr ?_
    push_cast
    linarith

/-- Witness for C8: at the `st::backgroundCheck`-sized duration 120, delta 7
and the animation value one half, the index is within range. -/
theorem claim_C8_frame_index_witness :
    (0 : Rat) ≤ 1/2 ∧ (1 : Rat)/2 ≤ 1
    ∧ (2 ≤ ServiceCheck.framesCount 120 7
      ∧ 0 ≤ ServiceCheck.paintFrameIndex (ServiceCheck.framesCount 120 7) (1/2)
      ∧ ServiceCheck.paintFrameIndex (ServiceCheck.framesCount 120 7) (1/2)
        < (ServiceCheck.framesCount 120 7 : Int)) :=
  ⟨by norm_num, by norm_num,
    claim_C8_frame_index 120 7 (1/2) (by norm_num) (by norm_num)⟩

/-- C9: `Start` shows the bad-link box and returns `false` exactly when the
slug is not a plain-color slug and `IsValidWallPaperSlug` rejects it, which
happens exactly when the slug is empty, longer than 255 characters, or has
a character other than ASCII letters, digits, `.`, `_` and `-`; every other
slug makes `Start` return `true`. -/
theorem claim_C9_start (fromColorSlug : List Char → Bool) (slug : List Char) :
    ((BackgroundPreviewBox.Start fromColorSlug slug).returned = false
        ∧ (BackgroundPreviewBox.Start fromColorSlug slug).badLinkShown = true
      ↔ fromColorSlug slug = false ∧ IsValidWallPaperSlug slug = false)
    ∧ ((BackgroundPreviewBox.Start fromColorSlug slug).returned = true
      ↔ ¬(fromColorSlug slug = false ∧ IsValidWallPaperSlug slug = false))
    ∧ (IsValidWallPaperSlug slug = true
      ↔ slug ≠ [] ∧ slug.length ≤ kMaxWallPaperSlugLength
        ∧ ∀ c ∈ slug, isGoodSlugChar c = true) := by
  refine ⟨?_, ?_, IsValidWallPaperSlug_iff slug⟩
  · unfold BackgroundPreviewBox.Start
    split
    · next h => simp [h]
    · next h =>
      split
      · next h2 => simp_all
      · next h2 => simp_all
  · unfold BackgroundPreviewBox.Start
    split
    · next h => simp [h]
    · next h =>
      split
      · next h2 => simp_all
      · next h2 => simp_all

/-- C10: `ColorizePattern` reads only the alpha byte of each input pixel:
two images whose pixels agree on the alpha channel are colorized to
identical outputs, whatever the `anim` fixed-point helpers compute. -/
theorem claim_C10_colorize_alpha_only (ops : AnimOps) (color : Color)
    (img1 img2 : PixImage) (h : alphaChannel img1 = alphaChannel img2) :
    ColorizePattern ops img1 color = ColorizePattern ops img2 color := by
  have hmap : ∀ (img : PixImage),
      ColorizePattern ops img color
        = (alphaChannel img).map (fun row => row.map
            (fun a => ops.mulUnshift (ops.shifted color) (a + 1))) := by
    intro img
    unfold ColorizePattern alphaChannel
    rw [List.map_map]
    simp [List.map_map, Function.comp_def]
  rw [hmap img1, hmap img2, h]

/-- Witness for C10: two concrete one-pixel images differing in red, green
and blue but agreeing in alpha colorize identically. -/
theorem claim_C10_colorize_alpha_only_witness :
    ColorizePattern opsW [[{ b := 1, g := 2, r := 3, a := 7 }]] 5
      = ColorizePattern opsW [[{ b := 9, g := 9, r := 9, a := 7 }]] 5 :=
  claim_C10_colorize_alpha_only opsW 5
    [[{ b := 1, g := 2, r := 3, a := 7 }]]
    [[{ b := 9, g := 9, r := 9, a := 7 }]] rfl
